import Mathlib

/-!
Shallow embedding of the better-auth invite plugin (invitation lifecycle
engine) and proofs about its redemption, cancellation and creation logic.

The embedding follows the source files:
  - src/src/types.ts            (consumeInvite, error helpers, getDate util)
  - src/src/routes/activate-invite-logic.ts  (activateInviteLogic)
  - src/src/routes/cancel-invite.ts          (cancelInvite)
  - src/unnamed/part_006        (invitesHook, the post-auth resumption hook)
  - src/unnamed/part_009        (getInviteAdapter: store operations, adapter createInvite)
  - src/unnamed/part_010        (createInvite route)
  - src/unnamed/part_008        (ERROR_CODES constants)

Conventions of the embedding:
  - JS Date values are modelled as integers (milliseconds since the epoch).
  - The JS number field maxUses, which may be the Infinity sentinel, is
    modelled as ENat (natural numbers extended with a top element).
  - The backing database is an explicit Store record holding the invite
    rows, the inviteUse rows and the user rows as lists; each adapter
    operation is a pure function on Store.
  - The injected clock options.getDate, a zero-argument function in the
    source, is modelled by the single value it returns during the request
    being modelled; the wall clock Date.now used by the getDate utility of
    types.ts is a separate explicit parameter, so the two clocks stay
    distinguishable.
  - Fallible route handlers return an outcome together with the resulting
    Store, so that statements about unchanged state are expressible.
-/

namespace InvitePlugin

/-- Milliseconds since the epoch, the contents of a JS Date. -/
abbrev Time := Int

/-- The maxUses field is a JS number that is either a natural count or the
Infinity sentinel; modelled as extended naturals. -/
abbrev MaxUses := ENat

/-- An invite row, from the InviteType and schema definitions. -/
structure Invitation where
  id : String
  token : String
  createdByUserId : String
  createdAt : Time
  expiresAt : Time
  maxUses : MaxUses
  redirectToAfterUpgrade : String
  shareInviterName : Bool
  email : Option String
  role : String
deriving DecidableEq

/-- An inviteUse row, from the InviteUseType definition. -/
structure InviteUse where
  inviteId : String
  usedByUserId : String
  usedAt : Time
deriving DecidableEq

/-- A user row of the host auth framework, restricted to the fields the
invite plugin reads and writes. -/
structure User where
  id : String
  email : String
  name : String
  role : String
deriving DecidableEq

/-- The backing store: the invite table, the inviteUse table and the user
table of the host framework. -/
structure Store where
  invites : List Invitation
  inviteUses : List InviteUse
  users : List User
deriving DecidableEq

/-- Adapter operation findInvitation: findOne on the invite table by token. -/
def findInvitation (st : Store) (token : String) : Option Invitation :=
  st.invites.find? (fun i => i.token == token)

/-- Adapter operation deleteInvitation: delete on the invite table by token. -/
def deleteInvitation (st : Store) (token : String) : Store :=
  { st with invites := st.invites.filter (fun i => i.token != token) }

/-- Adapter operation createInviteUse: create on the inviteUse table. -/
def createInviteUse (st : Store) (u : InviteUse) : Store :=
  { st with inviteUses := st.inviteUses ++ [u] }

/-- Adapter operation countInvitationUses: count on the inviteUse table by
inviteId. -/
def countInvitationUses (st : Store) (inviteId : String) : Nat :=
  (st.inviteUses.filter (fun u => u.inviteId == inviteId)).length

/-- Adapter operation deleteInviteUses: deleteMany on the inviteUse table by
inviteId. -/
def deleteInviteUses (st : Store) (inviteId : String) : Store :=
  { st with inviteUses := st.inviteUses.filter (fun u => u.inviteId != inviteId) }

/-- The user-role mutation performed by consumeInvite through the host
adapter: update the role of the user row whose id matches. -/
def updateUserRole (st : Store) (userId : String) (role : String) : Store :=
  { st with users := st.users.map (fun u => if u.id == userId then { u with role := role } else u) }

/-- A permission option that is either a literal boolean or a predicate.
The canCreateInvite and canCancelInvite call sites await the call, so a
predicate of either synchronous or asynchronous shape contributes its
resolved boolean there and fn models both; eval mirrors the typeof check
in the source. The canAcceptInvite option needs the separate AcceptPolicy
type below, because its call site does not await. -/
inductive Policy (A : Type) where
  | lit (b : Bool)
  | fn (f : A → Bool)

/-- Evaluate a policy the way the source does: call it when it is a
function, otherwise use the literal. -/
def Policy.eval {A : Type} : Policy A → A → Bool
  | .lit b, _ => b
  | .fn f, a => f a

/-- Argument record of the canAcceptInvite policy. -/
structure AcceptGateData where
  invitedUser : User
  newAccount : Bool

/-- The canAcceptInvite option: a literal boolean, a synchronous predicate
returning a boolean, or an asynchronous predicate returning a Promise of a
boolean (the shape the option type admits and its doc example shows). The
distinction matters because consumeInvite calls the predicate without
awaiting it. -/
inductive AcceptPolicy where
  | lit (b : Bool)
  | fn (f : AcceptGateData → Bool)
  | asyncFn (f : AcceptGateData → Bool)

/-- Truthiness of the un-awaited value the consumeInvite gate tests: the
literal itself, the boolean a synchronous predicate returns, or - for an
asynchronous predicate - the Promise object the call returns, which is
always truthy whatever it later resolves to. -/
def AcceptPolicy.callTruthy : AcceptPolicy → AcceptGateData → Bool
  | .lit b, _ => b
  | .fn f, a => f a
  | .asyncFn _, _ => true

/-- The value the predicate evaluates (resolves) to, the notion the claims
speak about: the literal, or the boolean either kind of predicate
produces. -/
def AcceptPolicy.resolved : AcceptPolicy → AcceptGateData → Bool
  | .lit b, _ => b
  | .fn f, a => f a
  | .asyncFn f, a => f a

/-- Argument record of the canCancelInvite policy. -/
structure CancelGateData where
  inviterUser : User
  invite : Invitation

/-- Argument record of the canCreateInvite policy. -/
structure CreateGateData where
  email : Option String
  role : String
  inviterUser : User

/-- The beforeAcceptInvite hook may return a replacement user record; it
is modelled as an optional transform, where a none result means no
replacement, matching the before dot user check in the source. -/
structure InviteHooks where
  beforeAcceptInvite : Option (User → Option User)

/-- The resolved plugin options record (NewInviteOptions), restricted to
the fields the embedded operations read. getDate holds the value the
injected clock returns during the modelled request; the two send functions
are modelled by whether they are configured, their effect being an
external side channel whose only observable outcome here is success or a
thrown exception, passed to the create route as a parameter. -/
structure NewInviteOptions where
  getDate : Time
  invitationTokenExpiresIn : Int
  defaultMaxUses : Option MaxUses
  defaultRedirectAfterUpgrade : String
  defaultShareInviterName : Bool
  defaultSenderResponse : String
  defaultSenderResponseRedirect : String
  defaultRedirectToSignUp : String
  defaultRedirectToSignIn : String
  canCreateInvite : Policy CreateGateData
  canAcceptInvite : AcceptPolicy
  canCancelInvite : Policy CancelGateData
  sendUserInvitation : Bool
  sendUserRoleUpgrade : Bool
  inviteHooks : InviteHooks

/-- A thrown API error: http status keyword, message, and the optional
errorCode body field the routes sometimes attach. -/
structure ApiError where
  status : String
  message : String
  errorCode : Option String
deriving DecidableEq

/-- ERROR_CODES.INSUFFICIENT_PERMISSIONS from constants. -/
def INSUFFICIENT_PERMISSIONS : String :=
  "User does not have sufficient permissions to create invite"

/-- ERROR_CODES.INVALID_TOKEN from constants. -/
def INVALID_TOKEN : String := "Invalid or non-existent token"

/-- ERROR_CODES.INVALID_EMAIL from constants. -/
def INVALID_EMAIL : String := "This token is for a specific email, this is not it"

/-- ERROR_CODES.CANT_ACCEPT_INVITE from constants. -/
def CANT_ACCEPT_INVITE : String := "You cannot accept this invite"

/-- ERROR_CODES.NO_USES_LEFT_FOR_INVITE from constants. -/
def NO_USES_LEFT_FOR_INVITE : String := "No uses left for this invite"

/-- ERROR_CODES.INVALID_OR_EXPIRED_INVITE from constants. -/
def INVALID_OR_EXPIRED_INVITE : String := "Invalid or expired invite code"

/-- ERROR_CODES.ERROR_SENDING_THE_INVITATION_EMAIL from constants. -/
def ERROR_SENDING_THE_INVITATION_EMAIL : String := "Error sending the invitation email"

/-- The INVALID_EMAIL failure thrown by consumeInvite. -/
def invalidEmailError : ApiError :=
  { status := "BAD_REQUEST", message := INVALID_EMAIL, errorCode := some "INVALID_EMAIL" }

/-- The CANT_ACCEPT_INVITE failure thrown by consumeInvite. -/
def cantAcceptInviteError : ApiError :=
  { status := "BAD_REQUEST", message := CANT_ACCEPT_INVITE, errorCode := some "CANT_ACCEPT_INVITE" }

/-- The unknown-token failure of activateInviteLogic. -/
def invalidTokenError : ApiError :=
  { status := "BAD_REQUEST", message := "Invalid invite token", errorCode := some "INVALID_TOKEN" }

/-- The exhaustion failure of activateInviteLogic. -/
def alreadyUsedError : ApiError :=
  { status := "BAD_REQUEST", message := "Invite token has already been used",
    errorCode := some "INVALID_TOKEN" }

/-- The expiry failure of activateInviteLogic. -/
def expiredError : ApiError :=
  { status := "BAD_REQUEST", message := "Invite token has expired",
    errorCode := some "INVALID_TOKEN" }

/-- The expiry failure of the resumption hook (no errorCode field is
attached there). -/
def invalidOrExpiredInviteError : ApiError :=
  { status := "BAD_REQUEST", message := INVALID_OR_EXPIRED_INVITE, errorCode := none }

/-- The exhaustion failure of the resumption hook. -/
def noUsesLeftError : ApiError :=
  { status := "BAD_REQUEST", message := NO_USES_LEFT_FOR_INVITE, errorCode := none }

/-- The missing-session failure of the resumption hook. -/
def noSessionError : ApiError :=
  { status := "INTERNAL_SERVER_ERROR", message := "No session found for updating cookie",
    errorCode := none }

/-- The unknown-token failure of the cancel route. -/
def cancelInvalidTokenError : ApiError :=
  { status := "BAD_REQUEST", message := INVALID_TOKEN, errorCode := some "INVALID_TOKEN" }

/-- The permission failure of the cancel route, used both for the ownership
check and for the canCancelInvite policy check. -/
def insufficientPermissionsError : ApiError :=
  { status := "BAD_REQUEST", message := INSUFFICIENT_PERMISSIONS,
    errorCode := some "INSUFFICIENT_PERMISSIONS" }

/-- The missing-delivery-function failure of the create route. -/
def invitationEmailNotEnabledError : ApiError :=
  { status := "INTERNAL_SERVER_ERROR", message := "Invitation email is not enabled",
    errorCode := none }

/-- The permission failure of the create route (no errorCode field is
attached there). -/
def createInsufficientPermissionsError : ApiError :=
  { status := "BAD_REQUEST", message := INSUFFICIENT_PERMISSIONS, errorCode := none }

/-- The delivery failure of the create route. -/
def errorSendingInvitationEmailError : ApiError :=
  { status := "INTERNAL_SERVER_ERROR", message := ERROR_SENDING_THE_INVITATION_EMAIL,
    errorCode := none }

/-- Modelled at the framework interface: better-auth derives the
client-visible error code from the thrown message by uppercasing it and
replacing spaces with underscores. The repository test
tests/invite.activate.test.ts pins this derivation by expecting the code
INVITE_TOKEN_HAS_EXPIRED together with the message of expiredError. -/
def deriveErrorCode (msg : String) : String :=
  String.mk (msg.data.map (fun c => if c = ' ' then '_' else c.toUpper))

/-- The guard condition of consumeInvite testing a private invite against
the redeemer email: invitation.email is set and differs from
invitedUser.email. -/
def privateEmailMismatch (invitation : Invitation) (invitedUser : User) : Bool :=
  match invitation.email with
  | some e => e != invitedUser.email
  | none => false

/-- The last-use test of consumeInvite, timesUsed === invitation.maxUses - 1
under JS number semantics: with the Infinity sentinel the right side stays
Infinity and the equality is false for every finite count; with a finite
maxUses the subtraction is exact integer subtraction. -/
def isLastUse (timesUsed : Nat) (maxUses : MaxUses) : Bool :=
  match maxUses with
  | ⊤ => false
  | (n : Nat) => (timesUsed : Int) = (n : Int) - 1

/-- consumeInvite from types.ts: the private-email gate, the
canAcceptInvite gate, the role mutation, then last-use cleanup (delete all
use rows and the invitation) or insertion of a single use row. The accept
gate tests the truthiness of the un-awaited predicate call, as the source
does not await it: an asynchronous predicate yields a truthy Promise and
the gate passes whatever the predicate later resolves to. The
onInvitationUsed callback is fire-and-forget with its errors swallowed, so
it has no effect on the modelled state. On a thrown error the store is
returned unchanged, reflecting that the throw happens before any
mutation. -/
def consumeInvite (options : NewInviteOptions) (st : Store) (invitation : Invitation)
    (invitedUser : User) (userId : String) (timesUsed : Nat) (token : String)
    (newAccount : Bool) : Except ApiError Unit × Store :=
  if privateEmailMismatch invitation invitedUser then
    (Except.error invalidEmailError, st)
  else
    let canAccept := options.canAcceptInvite.callTruthy ⟨invitedUser, newAccount⟩
    if !canAccept then
      (Except.error cantAcceptInviteError, st)
    else
      let st1 := updateUserRole st userId invitation.role
      let usedAt := options.getDate
      if isLastUse timesUsed invitation.maxUses then
        let st2 := deleteInviteUses st1 invitation.id
        let st3 := deleteInvitation st2 token
        (Except.ok (), st3)
      else
        (Except.ok (), createInviteUse st1 { inviteId := invitation.id, usedByUserId := userId, usedAt := usedAt })

/-- Apply the optional beforeAcceptInvite hook the way both call sites do:
when the hook is configured and returns a user, that user replaces the
invited user. -/
def applyBeforeAcceptInvite (options : NewInviteOptions) (u : User) : User :=
  match options.inviteHooks.beforeAcceptInvite with
  | some h => (h u).getD u
  | none => u

/-- Outcome of activateInviteLogic: a thrown failure, a completed
consumption (afterUpgrade), or the unauthenticated branch that stores the
token in the signed invite cookie and asks the caller to sign in or up. -/
inductive ActivateOutcome where
  | failure (e : ApiError)
  | upgraded
  | signInUpCookie (token : String)
deriving DecidableEq

/-- activateInviteLogic from routes/activate-invite-logic.ts: look up the
invitation, fail on unknown token, fail when no uses are left, fail when
expired, then either consume directly under an authenticated session or
set the invite cookie and report that sign in or sign up is required. -/
def activateInviteLogic (options : NewInviteOptions) (st : Store) (token : String)
    (sessionUser : Option User) : ActivateOutcome × Store :=
  match findInvitation st token with
  | none => (ActivateOutcome.failure invalidTokenError, st)
  | some invitation =>
    let timesUsed := countInvitationUses st invitation.id
    if ¬((timesUsed : MaxUses) < invitation.maxUses) then
      (ActivateOutcome.failure alreadyUsedError, st)
    else if options.getDate > invitation.expiresAt then
      (ActivateOutcome.failure expiredError, st)
    else
      match sessionUser with
      | some u =>
        let invitedUser := applyBeforeAcceptInvite options u
        match consumeInvite options st invitation invitedUser invitedUser.id timesUsed token false with
        | (Except.error e, st1) => (ActivateOutcome.failure e, st1)
        | (Except.ok _, st1) => (ActivateOutcome.upgraded, st1)
      | none => (ActivateOutcome.signInUpCookie token, st)

/-- Outcome of the post-auth resumption hook: a silent return, a thrown
failure, or a completed consumption. -/
inductive HookOutcome where
  | skip
  | failure (e : ApiError)
  | success
deriving DecidableEq

/-- Result of the resumption hook: outcome, resulting store, and whether
the invite cookie was expired by the handler. -/
structure HookResult where
  outcome : HookOutcome
  store : Store
  cookieCleared : Bool
deriving DecidableEq

/-- invitesHook from the hooks source file (post-auth resumption):
sessionUser is the user row found for the validated new session (none when
the session validation or the user lookup fails), cookieToken is the value
read from the signed invite cookie, hasSession tells whether a session
object is available for the cookie refresh. The handler returns silently
when there is no session user, no cookie or no matching invitation; it
checks expiry, then exhaustion, then consumes; the invite cookie is
expired only after a successful consumption, every thrown failure leaves
it in place. -/
def invitesHook (options : NewInviteOptions) (st : Store) (sessionUser : Option User)
    (hasSession : Bool) (cookieToken : Option String) : HookResult :=
  match sessionUser with
  | none => { outcome := HookOutcome.skip, store := st, cookieCleared := false }
  | some sessionUser0 =>
    match cookieToken with
    | none => { outcome := HookOutcome.skip, store := st, cookieCleared := false }
    | some inviteToken =>
      match findInvitation st inviteToken with
      | none => { outcome := HookOutcome.skip, store := st, cookieCleared := false }
      | some invite =>
        if invite.expiresAt < options.getDate then
          { outcome := HookOutcome.failure invalidOrExpiredInviteError, store := st,
            cookieCleared := false }
        else
          let timesUsed := countInvitationUses st invite.id
          if ¬((timesUsed : MaxUses) < invite.maxUses) then
            { outcome := HookOutcome.failure noUsesLeftError, store := st,
              cookieCleared := false }
          else if !hasSession then
            { outcome := HookOutcome.failure noSessionError, store := st,
              cookieCleared := false }
          else
            let invitedUser := applyBeforeAcceptInvite options sessionUser0
            match consumeInvite options st invite invitedUser sessionUser0.id timesUsed
                inviteToken true with
            | (Except.error e, st1) =>
              { outcome := HookOutcome.failure e, store := st1, cookieCleared := false }
            | (Except.ok _, st1) =>
              { outcome := HookOutcome.success, store := st1, cookieCleared := true }

/-- Outcome of the cancel route. -/
inductive CancelOutcome where
  | failure (e : ApiError)
  | success
deriving DecidableEq

/-- cancelInvite from routes/cancel-invite.ts: unknown token fails, a
caller other than the creator fails with INSUFFICIENT_PERMISSIONS before
the canCancelInvite policy is even evaluated, a false policy fails with
the same code, and only then are the use rows and the invitation
deleted. -/
def cancelInvite (options : NewInviteOptions) (st : Store) (token : String)
    (inviterUser : User) : CancelOutcome × Store :=
  match findInvitation st token with
  | none => (CancelOutcome.failure cancelInvalidTokenError, st)
  | some invite =>
    if invite.createdByUserId != inviterUser.id then
      (CancelOutcome.failure insufficientPermissionsError, st)
    else
      let canCancel := options.canCancelInvite.eval ⟨inviterUser, invite⟩
      if !canCancel then
        (CancelOutcome.failure insufficientPermissionsError, st)
      else
        let st1 := deleteInviteUses st invite.id
        let st2 := deleteInvitation st1 token
        (CancelOutcome.success, st2)

/-- The getDate utility of types.ts: Date.now plus a span, the span being
seconds or milliseconds. The wall clock value Date.now is an explicit
parameter. -/
def getDate (wallNow : Time) (span : Int) (secUnit : Bool) : Time :=
  wallNow + (if secUnit then span * 1000 else span)

/-- The create body after zod validation, optional fields left optional;
tokenType is omitted because the generated token string is passed to the
adapter explicitly. -/
structure CreateInvite where
  role : String
  email : Option String
  maxUses : Option MaxUses
  expiresIn : Option Int
  redirectToAfterUpgrade : Option String
  shareInviterName : Option Bool
  senderResponse : Option String
  senderResponseRedirect : Option String
  redirectToSignUp : Option String
  redirectToSignIn : Option String

/-- The adapter createInvite of the adapter source file: resolves the
payload against the option defaults, computes expiresAt with the wall
clock utility getDate, computes createdAt with the injected clock, and
resolves maxUses through the explicit / configured-default / email-presence
chain with the Infinity sentinel for public invites; then inserts the row.
genToken is the string produced by the resolved token generator and newId
the database-assigned row id. -/
def adapterCreateInvite (options : NewInviteOptions) (st : Store) (invite : CreateInvite)
    (user : User) (genToken : String) (newId : String) (wallNow : Time) :
    Invitation × Store :=
  let expiresIn := invite.expiresIn.getD options.invitationTokenExpiresIn
  let expiresAt := getDate wallNow expiresIn true
  let now := options.getDate
  let newMaxUses := invite.maxUses.getD
    (options.defaultMaxUses.getD (if invite.email.isSome then (1 : MaxUses) else ⊤))
  let row : Invitation :=
    { id := newId, token := genToken, createdByUserId := user.id, createdAt := now,
      expiresAt := expiresAt, maxUses := newMaxUses,
      redirectToAfterUpgrade := (invite.redirectToAfterUpgrade.getD options.defaultRedirectAfterUpgrade),
      shareInviterName := (invite.shareInviterName.getD options.defaultShareInviterName),
      email := invite.email, role := invite.role }
  (row, { st with invites := st.invites ++ [row] })

/-- Outcome of the create route: a thrown failure or a json success whose
message is a confirmation, the raw token or the redemption url. -/
inductive CreateOutcome where
  | failure (e : ApiError)
  | success (message : String)
deriving DecidableEq

/-- The createInvite route from the create route source file: the private
invite type is determined by email presence; a private invite with no
delivery function configured fails fast; the canCreateInvite policy is
evaluated; the invitation is persisted; for a private invite the delivery
function is selected (sendUserInvitation for a new account, otherwise
sendUserRoleUpgrade with sendUserInvitation as fallback) and invoked, a
thrown delivery error being converted to a 500 with
ERROR_SENDING_THE_INVITATION_EMAIL while the persisted row stays; for a
public invite the token or url is returned according to senderResponse.
existingUser is the account found for the email, deliveryThrows tells
whether the delivery function throws. -/
def createInvite (options : NewInviteOptions) (st : Store) (body : CreateInvite)
    (inviterUser : User) (existingUser : Option User) (genToken : String) (newId : String)
    (wallNow : Time) (baseURL : String) (deliveryThrows : Bool) :
    CreateOutcome × Store :=
  let isPrivate := body.email.isSome
  if isPrivate && !options.sendUserInvitation && !options.sendUserRoleUpgrade then
    (CreateOutcome.failure invitationEmailNotEnabledError, st)
  else
    let canCreate := options.canCreateInvite.eval ⟨body.email, body.role, inviterUser⟩
    if !canCreate then
      (CreateOutcome.failure createInsufficientPermissionsError, st)
    else
      let created := adapterCreateInvite options st body inviterUser genToken newId wallNow
      let invitation := created.1
      let st1 := created.2
      let url := baseURL ++ "/invite/" ++ invitation.token
      if isPrivate then
        let newAccount := existingUser.isNone
        let sendFnConfigured :=
          if newAccount then options.sendUserInvitation
          else options.sendUserRoleUpgrade || options.sendUserInvitation
        if !sendFnConfigured then
          (CreateOutcome.failure invitationEmailNotEnabledError, st1)
        else if deliveryThrows then
          (CreateOutcome.failure errorSendingInvitationEmailError, st1)
        else
          (CreateOutcome.success "The invitation was sent", st1)
      else
        let redirectTo :=
          if body.senderResponseRedirect.getD options.defaultSenderResponseRedirect == "signUp"
          then body.redirectToSignUp.getD options.defaultRedirectToSignUp
          else body.redirectToSignIn.getD options.defaultRedirectToSignIn
        let redirectURL := url ++ "?callbackURL=" ++ redirectTo
        let returnToken :=
          if body.senderResponse.getD options.defaultSenderResponse == "token"
          then invitation.token else redirectURL
        (CreateOutcome.success returnToken, st1)

/-! Helper lemmas about the store operations. -/

/-- After deleteInvitation, no invitation with the deleted token is found. -/
theorem findInvitation_deleteInvitation (st : Store) (token : String) :
    findInvitation (deleteInvitation st token) token = none := by
  unfold findInvitation deleteInvitation
  simp only [List.find?_eq_none, List.mem_filter]
  intro i hi
  simpa using hi.2

/-- After deleteInviteUses, the use count of the purged invite id is zero. -/
theorem countInvitationUses_deleteInviteUses (st : Store) (inviteId : String) :
    countInvitationUses (deleteInviteUses st inviteId) inviteId = 0 := by
  unfold countInvitationUses deleteInviteUses
  simp only [List.length_eq_zero, List.filter_eq_nil_iff, List.mem_filter]
  intro u hu
  simpa using hu.2

/-- deleteInvitation does not touch the inviteUse table. -/
theorem inviteUses_deleteInvitation (st : Store) (token : String) :
    (deleteInvitation st token).inviteUses = st.inviteUses := rfl

/-- Coercion of the finite use count into the JS number order. -/
theorem natCast_lt_natCast (a b : Nat) : ((a : MaxUses) < (b : MaxUses)) ↔ a < b := by
  exact_mod_cast Iff.rfl

/-- The last-use test holds for a finite positive bound exactly at the
count one below it. -/
theorem isLastUse_coe (t N : Nat) (hN : 1 ≤ N) :
    isLastUse t (N : MaxUses) = true ↔ t = N - 1 := by
  simp only [isLastUse, decide_eq_true_eq]
  omega

/-- The last-use test fails below the last slot. -/
theorem isLastUse_coe_false (t N : Nat) (h : t + 1 < N) :
    isLastUse t (N : MaxUses) = false := by
  simp only [isLastUse, decide_eq_false_iff_not]
  omega

/-- The only errors consumeInvite can throw are the private-email mismatch
and the accept-permission denial. -/
theorem consumeInvite_error_cases (options : NewInviteOptions) (st : Store)
    (invitation : Invitation) (invitedUser : User) (userId : String) (timesUsed : Nat)
    (token : String) (newAccount : Bool) (e : ApiError) (st1 : Store)
    (h : consumeInvite options st invitation invitedUser userId timesUsed token newAccount
      = (Except.error e, st1)) :
    e = invalidEmailError ∨ e = cantAcceptInviteError := by
  by_cases h1 : privateEmailMismatch invitation invitedUser
  · left
    simp [consumeInvite, h1] at h
    exact h.1.symm
  · by_cases h2 : options.canAcceptInvite.callTruthy { invitedUser := invitedUser, newAccount := newAccount }
    · cases h3 : isLastUse timesUsed invitation.maxUses <;>
        simp [consumeInvite, h1, h2, h3] at h
    · right
      simp [consumeInvite, h1, h2] at h
      exact h.1.symm

/-! Sample data used by the witness and counterexample theorems. -/

/-- A private invitation bound to the email of userA, three uses allowed. -/
def inv1 : Invitation :=
  { id := "i1", token := "t1", createdByUserId := "creator", createdAt := 0,
    expiresAt := 1000000, maxUses := 3, redirectToAfterUpgrade := "/after",
    shareInviterName := true, email := some "a@x.com", role := "admin" }

/-- The user the private invitation inv1 is addressed to. -/
def userA : User := { id := "u1", email := "a@x.com", name := "A", role := "user" }

/-- A user whose email does not match inv1. -/
def userB : User := { id := "u2", email := "b@x.com", name := "B", role := "user" }

/-- A store holding inv1 with no recorded uses. -/
def st1 : Store := { invites := [inv1], inviteUses := [], users := [userA, userB] }

/-- An empty store (no invitations). -/
def st0 : Store := { invites := [], inviteUses := [], users := [userA] }

/-- Resolved options with allow-all policies and an injected clock reading
of 100 ms; invitation delivery is configured. -/
def optTrue : NewInviteOptions :=
  { getDate := 100, invitationTokenExpiresIn := 3600, defaultMaxUses := none,
    defaultRedirectAfterUpgrade := "/after", defaultShareInviterName := true,
    defaultSenderResponse := "token", defaultSenderResponseRedirect := "signUp",
    defaultRedirectToSignUp := "/auth/sign-up", defaultRedirectToSignIn := "/auth/sign-in",
    canCreateInvite := Policy.lit true, canAcceptInvite := AcceptPolicy.lit true,
    canCancelInvite := Policy.lit true, sendUserInvitation := true,
    sendUserRoleUpgrade := false, inviteHooks := { beforeAcceptInvite := none } }

/-- Options like optTrue but with the accept policy statically false. -/
def optAcceptFalse : NewInviteOptions :=
  { optTrue with canAcceptInvite := AcceptPolicy.lit false }

/-- Options like optTrue but with an asynchronous accept predicate that
resolves to false: its un-awaited call is a truthy Promise. -/
def optAsyncFalse : NewInviteOptions :=
  { optTrue with canAcceptInvite := AcceptPolicy.asyncFn (fun _ => false) }

/-- Options like optTrue but with the injected clock reading 2000000 ms,
past the expiry of inv1. -/
def optLate : NewInviteOptions := { optTrue with getDate := 2000000 }

/-! Claim theorems. -/

/-- C2: for a private invitation and a redeemer whose email differs from
the invitation email, consumeInvite throws INVALID_EMAIL and returns the
store unchanged, for every accept policy, every use count and every
freshness of the token: the check precedes the permission gate, the role
mutation, the use insertion and the deletion. -/
theorem consume_private_email_mismatch (options : NewInviteOptions) (st : Store)
    (invitation : Invitation) (invitedUser : User) (userId : String) (timesUsed : Nat)
    (token : String) (newAccount : Bool) (e : String)
    (he : invitation.email = some e) (hne : e ≠ invitedUser.email) :
    consumeInvite options st invitation invitedUser userId timesUsed token newAccount
      = (Except.error invalidEmailError, st) := by
  unfold consumeInvite privateEmailMismatch
  rw [he]
  simp [hne]

/-- Witness for C2 at concrete inputs: userB tries the invitation bound to
the email of userA. -/
theorem consume_private_email_mismatch_witness :
    consumeInvite optTrue st1 inv1 userB "u2" 0 "t1" false
      = (Except.error invalidEmailError, st1) :=
  consume_private_email_mismatch optTrue st1 inv1 userB "u2" 0 "t1" false "a@x.com"
    rfl (by decide)

/-- C7 counterexample: consumeInvite does not await the canAcceptInvite
call, so an asynchronous predicate that resolves to false yields a truthy
Promise and consumption proceeds: on a valid attempt by the matching user
the result is a success and the store is mutated, not a CANT_ACCEPT_INVITE
failure with unchanged state, refuting the claim as stated. -/
theorem consume_accept_gate_counterexample :
    AcceptPolicy.resolved optAsyncFalse.canAcceptInvite
        { invitedUser := userA, newAccount := false } = false
    ∧ (consumeInvite optAsyncFalse st1 inv1 userA "u1" 0 "t1" false).1 = Except.ok ()
    ∧ (consumeInvite optAsyncFalse st1 inv1 userA "u1" 0 "t1" false).2 ≠ st1 := by
  exact ⟨rfl, rfl, by decide⟩

/-- C7 as amended: when the private-email gate does not already fail, a
canAcceptInvite option whose un-awaited call is falsy (a literal false or
a synchronous predicate returning false) makes consumeInvite throw
CANT_ACCEPT_INVITE with the store unchanged - no role mutation, no use
row, no deletion; but an asynchronous predicate is never awaited, its
call result is a truthy Promise, and consumption succeeds whatever the
predicate resolves to. -/
theorem consume_accept_gate (options : NewInviteOptions) (st : Store)
    (invitation : Invitation) (invitedUser : User) (userId : String) (timesUsed : Nat)
    (token : String) (newAccount : Bool)
    (hmail : privateEmailMismatch invitation invitedUser = false) :
    (options.canAcceptInvite.callTruthy
        { invitedUser := invitedUser, newAccount := newAccount } = false →
      consumeInvite options st invitation invitedUser userId timesUsed token newAccount
        = (Except.error cantAcceptInviteError, st))
    ∧ (∀ f, options.canAcceptInvite = AcceptPolicy.asyncFn f →
      (consumeInvite options st invitation invitedUser userId timesUsed token newAccount).1
        = Except.ok ()) := by
  constructor
  · intro hgate
    unfold consumeInvite
    rw [hmail, hgate]
    simp
  · intro f hf
    simp only [consumeInvite, hmail, hf, AcceptPolicy.callTruthy, Bool.not_true,
      Bool.false_eq_true, if_false]
    split_ifs <;> rfl

/-- Witness for the amended C7: userA, whose email matches, is denied by
the literal false policy but passes the gate under the asynchronous
predicate resolving to false. -/
theorem consume_accept_gate_witness :
    consumeInvite optAcceptFalse st1 inv1 userA "u1" 0 "t1" false
      = (Except.error cantAcceptInviteError, st1)
    ∧ (consumeInvite optAsyncFalse st1 inv1 userA "u1" 0 "t1" false).1 = Except.ok () :=
  ⟨(consume_accept_gate optAcceptFalse st1 inv1 userA "u1" 0 "t1" false (by decide)).1 rfl,
   (consume_accept_gate optAsyncFalse st1 inv1 userA "u1" 0 "t1" false (by decide)).2
     (fun _ => false) rfl⟩

/-- C6: cancellation is creator-only irrespective of the canCancelInvite
policy: when the caller is not the creator the route fails with
INSUFFICIENT_PERMISSIONS and the store, hence the invitation and its use
rows, is unchanged, for every policy; and a successful cancellation
implies the caller is the creator. -/
theorem cancel_creator_only (options : NewInviteOptions) (st : Store) (token : String)
    (caller : User) (inv : Invitation)
    (hfind : findInvitation st token = some inv) :
    (inv.createdByUserId ≠ caller.id →
      cancelInvite options st token caller
        = (CancelOutcome.failure insufficientPermissionsError, st))
    ∧ ((cancelInvite options st token caller).1 = CancelOutcome.success →
      inv.createdByUserId = caller.id) := by
  constructor
  · intro hne
    simp only [cancelInvite, hfind]
    simp [hne]
  · intro hs
    by_contra hne
    simp only [cancelInvite, hfind] at hs
    simp [hne] at hs

/-- Witness for C6: userA, who did not create inv1, is rejected although
the cancel policy is statically true. -/
theorem cancel_creator_only_witness :
    cancelInvite optTrue st1 "t1" userA
      = (CancelOutcome.failure insufficientPermissionsError, st1) :=
  (cancel_creator_only optTrue st1 "t1" userA inv1 rfl).1 (by decide)

/-- C10: when the pending-redemption cookie carries a token with no stored
invitation, the resumption hook returns silently with the store unchanged
and without clearing the cookie, while direct activation of the same token
fails with INVALID_TOKEN. -/
theorem hook_unknown_token (options : NewInviteOptions) (st : Store) (token : String)
    (su : User) (hasSession : Bool)
    (hfind : findInvitation st token = none) :
    invitesHook options st (some su) hasSession (some token)
      = { outcome := HookOutcome.skip, store := st, cookieCleared := false }
    ∧ ∀ su2, activateInviteLogic options st token su2
      = (ActivateOutcome.failure invalidTokenError, st) := by
  constructor
  · simp only [invitesHook, hfind]
  · intro su2
    simp only [activateInviteLogic, hfind]

/-- Witness for C10 on the empty store. -/
theorem hook_unknown_token_witness :
    invitesHook optTrue st0 (some userA) true (some "missing")
      = { outcome := HookOutcome.skip, store := st0, cookieCleared := false }
    ∧ activateInviteLogic optTrue st0 "missing" none
      = (ActivateOutcome.failure invalidTokenError, st0) :=
  ⟨(hook_unknown_token optTrue st0 "missing" userA true rfl).1,
   (hook_unknown_token optTrue st0 "missing" userA true rfl).2 none⟩

/-- C5: with uses remaining, a redemption at an injected-clock time
strictly after expiresAt fails with the expiry error, whose message
derives the framework error code INVITE_TOKEN_HAS_EXPIRED; at a time not
after expiresAt the expiry failure cannot occur. -/
theorem activate_expiry (options : NewInviteOptions) (st : Store) (token : String)
    (inv : Invitation) (su : Option User)
    (hfind : findInvitation st token = some inv)
    (huses : (countInvitationUses st inv.id : MaxUses) < inv.maxUses) :
    (options.getDate > inv.expiresAt →
      activateInviteLogic options st token su = (ActivateOutcome.failure expiredError, st)
      ∧ deriveErrorCode expiredError.message = "INVITE_TOKEN_HAS_EXPIRED")
    ∧ (¬ options.getDate > inv.expiresAt →
      (activateInviteLogic options st token su).1 ≠ ActivateOutcome.failure expiredError) := by
  constructor
  · intro hexp
    refine ⟨?_, by decide⟩
    simp only [activateInviteLogic, hfind]
    rw [if_neg (not_not_intro huses), if_pos hexp]
  · intro hexp
    simp only [activateInviteLogic, hfind]
    rw [if_neg (not_not_intro huses), if_neg hexp]
    cases su with
    | none => simp
    | some u =>
      rcases hc : consumeInvite options st inv (applyBeforeAcceptInvite options u)
          (applyBeforeAcceptInvite options u).id (countInvitationUses st inv.id) token false
        with ⟨res, st2⟩
      cases res with
      | ok _ => simp [hc]
      | error e =>
        have hcases := consumeInvite_error_cases options st inv (applyBeforeAcceptInvite options u)
          (applyBeforeAcceptInvite options u).id (countInvitationUses st inv.id) token false
          e st2 hc
        simp only [hc]
        rcases hcases with h | h <;> subst h <;> simp <;> decide

/-- Witness for C5: the clock reads 2000000 ms, past the expiry 1000000 ms
of inv1, and no use has been recorded. -/
theorem activate_expiry_witness :
    activateInviteLogic optLate st1 "t1" none = (ActivateOutcome.failure expiredError, st1)
    ∧ deriveErrorCode expiredError.message = "INVITE_TOKEN_HAS_EXPIRED" :=
  (activate_expiry optLate st1 "t1" inv1 none rfl (by decide)).1 (by decide)

/-- An exhausted and expired public invitation: one use allowed, one use
recorded, expiry in the past relative to the optTrue clock. -/
def invC4 : Invitation :=
  { id := "i2", token := "t2", createdByUserId := "creator", createdAt := 0,
    expiresAt := 0, maxUses := 1, redirectToAfterUpgrade := "/after",
    shareInviterName := true, email := none, role := "admin" }

/-- Store holding invC4 together with its single recorded use. -/
def stC4 : Store :=
  { invites := [invC4],
    inviteUses := [{ inviteId := "i2", usedByUserId := "u9", usedAt := 0 }],
    users := [userA] }

/-- C4 counterexample: on a token that is both fully used and expired, the
post-auth resumption hook fails with the expiry error of the hook, not
with its exhaustion error, because the hook checks expiry first; so the
claim that every redemption path checks exhaustion before expiry does not
hold. -/
theorem hook_check_order_counterexample :
    invitesHook optTrue stC4 (some userA) true (some "t2")
      = { outcome := HookOutcome.failure invalidOrExpiredInviteError, store := stC4,
          cookieCleared := false }
    ∧ invalidOrExpiredInviteError ≠ noUsesLeftError := ⟨rfl, by decide⟩

/-- C4 as amended: direct activation (shared by the API route and the
browser GET callback) checks exhaustion before expiry and reports the
exhaustion error on a token that is both fully used and expired, while the
resumption hook checks expiry first and reports its expiry error on the
same state. -/
theorem activate_hook_check_order (options : NewInviteOptions) (st : Store) (token : String)
    (inv : Invitation) (su : Option User) (u : User) (hs : Bool)
    (hfind : findInvitation st token = some inv)
    (hex : ¬ ((countInvitationUses st inv.id : MaxUses) < inv.maxUses))
    (hexp : inv.expiresAt < options.getDate) :
    activateInviteLogic options st token su = (ActivateOutcome.failure alreadyUsedError, st)
    ∧ invitesHook options st (some u) hs (some token)
      = { outcome := HookOutcome.failure invalidOrExpiredInviteError, store := st,
          cookieCleared := false } := by
  constructor
  · simp only [activateInviteLogic, hfind]
    rw [if_pos hex]
  · simp only [invitesHook, hfind]
    rw [if_pos hexp]

/-- Witness for the amended C4 on the exhausted and expired invC4. -/
theorem activate_hook_check_order_witness :
    activateInviteLogic optTrue stC4 "t2" none
      = (ActivateOutcome.failure alreadyUsedError, stC4)
    ∧ invitesHook optTrue stC4 (some userA) true (some "t2")
      = { outcome := HookOutcome.failure invalidOrExpiredInviteError, store := stC4,
          cookieCleared := false } :=
  activate_hook_check_order optTrue stC4 "t2" invC4 none userA true rfl (by decide) (by decide)

/-- An expired public invitation with uses remaining. -/
def invC3 : Invitation :=
  { id := "i3", token := "t3", createdByUserId := "creator", createdAt := 0,
    expiresAt := 0, maxUses := 3, redirectToAfterUpgrade := "/after",
    shareInviterName := true, email := none, role := "admin" }

/-- Store holding the expired invC3 with no uses. -/
def stC3 : Store := { invites := [invC3], inviteUses := [], users := [userA] }

/-- A fresh, redeemable public invitation. -/
def invOk : Invitation :=
  { id := "i4", token := "t4", createdByUserId := "creator", createdAt := 0,
    expiresAt := 1000000, maxUses := 3, redirectToAfterUpgrade := "/after",
    shareInviterName := true, email := none, role := "admin" }

/-- Store holding the redeemable invOk with no uses. -/
def stOk : Store := { invites := [invOk], inviteUses := [], users := [userA] }

/-- C3 counterexample: a terminal failure during resumption (expired
token, cookie present and matching) leaves the cookie in place, because
the hook throws before the cookie-clearing call; so the claim that the
cookie is cleared in every terminating outcome does not hold. -/
theorem hook_cookie_counterexample :
    (invitesHook optTrue stC3 (some userA) true (some "t3")).outcome
        = HookOutcome.failure invalidOrExpiredInviteError
    ∧ (invitesHook optTrue stC3 (some userA) true (some "t3")).cookieCleared = false :=
  ⟨rfl, rfl⟩

/-- C3 as amended: during resumption the cookie is cleared exactly on
successful consumption; every thrown terminal failure (expired, exhausted,
missing session, email mismatch, permission denial) leaves the cookie
set, since the handler throws before the clearing call. -/
theorem hook_cookie_clearing (options : NewInviteOptions) (st : Store) (su : Option User)
    (hs : Bool) (ct : Option String) :
    ((invitesHook options st su hs ct).outcome = HookOutcome.success →
      (invitesHook options st su hs ct).cookieCleared = true)
    ∧ (∀ e, (invitesHook options st su hs ct).outcome = HookOutcome.failure e →
      (invitesHook options st su hs ct).cookieCleared = false) := by
  cases su with
  | none => simp [invitesHook]
  | some u =>
    cases ct with
    | none => simp [invitesHook]
    | some t =>
      cases hf : findInvitation st t with
      | none => simp [invitesHook, hf]
      | some inv =>
        simp only [invitesHook, hf]
        split_ifs with h1 h2 h3
        all_goals
          first
          | simp
          | (rcases hc : consumeInvite options st inv (applyBeforeAcceptInvite options u) u.id
                (countInvitationUses st inv.id) t true with ⟨res, st2⟩
             cases res <;> simp [hc])

/-- Witness for the amended C3: a successful resumption on stOk clears the
cookie, the expired resumption on stC3 does not. -/
theorem hook_cookie_clearing_witness :
    (invitesHook optTrue stOk (some userA) true (some "t4")).cookieCleared = true
    ∧ (invitesHook optTrue stC3 (some userA) true (some "t3")).cookieCleared = false :=
  ⟨(hook_cookie_clearing optTrue stOk (some userA) true (some "t4")).1 rfl,
   (hook_cookie_clearing optTrue stC3 (some userA) true (some "t3")).2
     invalidOrExpiredInviteError rfl⟩

/-- A create body for a private invite addressed to the email of userA,
with an explicit expiresIn of 60 seconds and everything else left to the
defaults. -/
def bodyPriv : CreateInvite :=
  { role := "admin", email := some "a@x.com", maxUses := none, expiresIn := some 60,
    redirectToAfterUpgrade := none, shareInviterName := none, senderResponse := none,
    senderResponseRedirect := none, redirectToSignUp := none, redirectToSignIn := none }

/-- Options like optTrue but with the injected clock reading 1000 ms,
distinct from the wall clock values used in the creation theorems. -/
def optClock : NewInviteOptions := { optTrue with getDate := 1000 }

/-- C8: on a private create whose delivery function throws, the route
fails with the 500 ERROR_SENDING_THE_INVITATION_EMAIL, yet the store it
returns is exactly the store with the new invitation persisted, and the
invitation is still found by its token afterwards: persistence is not
rolled back. -/
theorem create_delivery_failure (options : NewInviteOptions) (st : Store)
    (body : CreateInvite) (inviter : User) (existing : Option User)
    (genToken newId : String) (wallNow : Time) (baseURL : String)
    (hemail : body.email.isSome = true)
    (hsend : options.sendUserInvitation = true)
    (hgate : options.canCreateInvite.eval
      { email := body.email, role := body.role, inviterUser := inviter } = true) :
    createInvite options st body inviter existing genToken newId wallNow baseURL true
      = (CreateOutcome.failure errorSendingInvitationEmailError,
         (adapterCreateInvite options st body inviter genToken newId wallNow).2)
    ∧ (findInvitation st genToken = none →
       findInvitation
         (createInvite options st body inviter existing genToken newId wallNow baseURL true).2
         genToken
         = some (adapterCreateInvite options st body inviter genToken newId wallNow).1) := by
  have key : createInvite options st body inviter existing genToken newId wallNow baseURL true
      = (CreateOutcome.failure errorSendingInvitationEmailError,
         (adapterCreateInvite options st body inviter genToken newId wallNow).2) := by
    simp [createInvite, hemail, hsend, hgate]
  refine ⟨key, fun hnone => ?_⟩
  rw [key]
  unfold findInvitation at hnone ⊢
  unfold adapterCreateInvite
  simp only [List.find?_append, hnone, Option.none_or]
  simp

/-- Witness for C8: a private create for the email of userA on the empty
store, with a throwing delivery function. -/
theorem create_delivery_failure_witness :
    createInvite optTrue st0 bodyPriv userA none "tok9" "i9" 0 "http://b" true
      = (CreateOutcome.failure errorSendingInvitationEmailError,
         (adapterCreateInvite optTrue st0 bodyPriv userA "tok9" "i9" 0).2)
    ∧ findInvitation
        (createInvite optTrue st0 bodyPriv userA none "tok9" "i9" 0 "http://b" true).2 "tok9"
      = some (adapterCreateInvite optTrue st0 bodyPriv userA "tok9" "i9" 0).1 :=
  ⟨(create_delivery_failure optTrue st0 bodyPriv userA none "tok9" "i9" 0 "http://b"
      rfl rfl rfl).1,
   (create_delivery_failure optTrue st0 bodyPriv userA none "tok9" "i9" 0 "http://b"
      rfl rfl rfl).2 rfl⟩

/-- C9 counterexample: with the injected clock reading 1000 ms and the
wall clock reading 0 ms, the created invitation has createdAt from the
injected clock but expiresAt equal to wall-clock zero plus the expiresIn
span, which differs from the injected reading plus the span; so the claim
that expiresAt equals the injected now plus expiresIn does not hold. -/
theorem create_clock_counterexample :
    (adapterCreateInvite optClock st0 bodyPriv userA "tok9" "i9" 0).1.createdAt = 1000
    ∧ (adapterCreateInvite optClock st0 bodyPriv userA "tok9" "i9" 0).1.expiresAt = 60000
    ∧ (adapterCreateInvite optClock st0 bodyPriv userA "tok9" "i9" 0).1.expiresAt
        ≠ optClock.getDate + 60 * 1000 := by
  refine ⟨rfl, rfl, by decide⟩

/-- C9 as amended: createdAt is taken from the injected clock and the
expiry comparison at redemption compares the injected clock against
expiresAt, but expiresAt itself is computed from the wall clock plus the
resolved expiresIn span in seconds, so the two creation timestamps come
from different clocks. -/
theorem create_clock (options : NewInviteOptions) (st : Store) (body : CreateInvite)
    (user : User) (genToken newId : String) (wallNow : Time) :
    (adapterCreateInvite options st body user genToken newId wallNow).1.createdAt
      = options.getDate
    ∧ (adapterCreateInvite options st body user genToken newId wallNow).1.expiresAt
      = wallNow + (body.expiresIn.getD options.invitationTokenExpiresIn) * 1000
    ∧ (∀ st2 token2 inv, findInvitation st2 token2 = some inv →
        ((countInvitationUses st2 inv.id : MaxUses) < inv.maxUses) →
        options.getDate > inv.expiresAt →
        (activateInviteLogic options st2 token2 none).1
          = ActivateOutcome.failure expiredError) := by
  refine ⟨rfl, rfl, fun st2 token2 inv hfind huses hexp => ?_⟩
  simp only [activateInviteLogic, hfind]
  rw [if_neg (not_not_intro huses), if_pos hexp]

/-- Witness for the amended C9 at the concrete clocks of the
counterexample, discharging the redemption conjunct on the expired inv1. -/
theorem create_clock_witness :
    (adapterCreateInvite optClock st0 bodyPriv userA "tok9" "i9" 0).1.createdAt
      = optClock.getDate
    ∧ (adapterCreateInvite optClock st0 bodyPriv userA "tok9" "i9" 0).1.expiresAt
      = 0 + (bodyPriv.expiresIn.getD optClock.invitationTokenExpiresIn) * 1000
    ∧ (activateInviteLogic optLate st1 "t1" none).1 = ActivateOutcome.failure expiredError :=
  ⟨(create_clock optClock st0 bodyPriv userA "tok9" "i9" 0).1,
   (create_clock optClock st0 bodyPriv userA "tok9" "i9" 0).2.1,
   (create_clock optLate st0 bodyPriv userA "tok9" "i9" 0).2.2 st1 "t1" inv1 rfl
     (by decide) (by decide)⟩

/-- The store produced by a last-use consumption: role mutated, then all
use rows of the invitation deleted, then the invitation deleted. -/
def lastUseStore (st : Store) (inv : Invitation) (effU : User)
    (token : String) : Store :=
  deleteInvitation (deleteInviteUses (updateUserRole st effU.id inv.role) inv.id) token

/-- The store produced by a non-final consumption: role mutated, then one
use row inserted. -/
def midUseStore (options : NewInviteOptions) (st : Store) (inv : Invitation) (effU : User) :
    Store :=
  createInviteUse (updateUserRole st effU.id inv.role)
    { inviteId := inv.id, usedByUserId := effU.id, usedAt := options.getDate }

/-- C1: for an invitation with finite maxUses N at least 1, a redemption
attempt finding at least N recorded uses fails with the exhaustion error
and leaves the store unchanged; when the consumption gates pass, the
redemption that finds exactly N minus 1 uses deletes the invitation
together with all its use rows, and a redemption that finds fewer than
N minus 1 uses inserts exactly one use row and leaves the invite table
unchanged, so exactly N successful redemptions are possible. -/
theorem activate_use_accounting (options : NewInviteOptions) (st : Store) (token : String)
    (inv : Invitation) (u : User) (N : Nat)
    (hfind : findInvitation st token = some inv)
    (hmax : inv.maxUses = (N : MaxUses))
    (hN : 1 ≤ N) :
    (N ≤ countInvitationUses st inv.id →
      activateInviteLogic options st token (some u)
        = (ActivateOutcome.failure alreadyUsedError, st))
    ∧ (privateEmailMismatch inv (applyBeforeAcceptInvite options u) = false →
       options.canAcceptInvite.callTruthy
         { invitedUser := applyBeforeAcceptInvite options u, newAccount := false } = true →
       ¬ options.getDate > inv.expiresAt →
       ((countInvitationUses st inv.id = N - 1 →
          activateInviteLogic options st token (some u)
            = (ActivateOutcome.upgraded,
               lastUseStore st inv (applyBeforeAcceptInvite options u) token)
          ∧ findInvitation
              (lastUseStore st inv (applyBeforeAcceptInvite options u) token) token
              = none
          ∧ countInvitationUses
              (lastUseStore st inv (applyBeforeAcceptInvite options u) token) inv.id
              = 0)
        ∧ (countInvitationUses st inv.id + 1 < N →
          activateInviteLogic options st token (some u)
            = (ActivateOutcome.upgraded,
               midUseStore options st inv (applyBeforeAcceptInvite options u))
          ∧ (midUseStore options st inv (applyBeforeAcceptInvite options u)).invites
              = st.invites
          ∧ (midUseStore options st inv (applyBeforeAcceptInvite options u)).inviteUses
              = st.inviteUses
                ++ [{ inviteId := inv.id,
                      usedByUserId := (applyBeforeAcceptInvite options u).id,
                      usedAt := options.getDate }]))) := by
  constructor
  · intro hge
    have hnotlt : ¬ ((countInvitationUses st inv.id : MaxUses) < inv.maxUses) := by
      rw [hmax, natCast_lt_natCast]
      omega
    simp only [activateInviteLogic, hfind]
    rw [if_pos hnotlt]
  · intro hmail hgate hexp
    constructor
    · intro hlastcount
      have hlt : ((countInvitationUses st inv.id : MaxUses) < inv.maxUses) := by
        rw [hmax, natCast_lt_natCast]
        omega
      have hlast : isLastUse (countInvitationUses st inv.id) inv.maxUses = true := by
        rw [hmax]
        exact (isLastUse_coe (countInvitationUses st inv.id) N hN).2 hlastcount
      have hcons : consumeInvite options st inv (applyBeforeAcceptInvite options u)
          (applyBeforeAcceptInvite options u).id (countInvitationUses st inv.id) token false
          = (Except.ok (), lastUseStore st inv (applyBeforeAcceptInvite options u) token) := by
        simp [consumeInvite, hmail, hgate, hlast, lastUseStore]
      refine ⟨?_, findInvitation_deleteInvitation _ token,
        countInvitationUses_deleteInviteUses
          (updateUserRole st (applyBeforeAcceptInvite options u).id inv.role) inv.id⟩
      simp only [activateInviteLogic, hfind]
      rw [if_neg (not_not_intro hlt), if_neg hexp]
      simp [hcons]
    · intro hmidcount
      have hlt : ((countInvitationUses st inv.id : MaxUses) < inv.maxUses) := by
        rw [hmax, natCast_lt_natCast]
        omega
      have hlast : isLastUse (countInvitationUses st inv.id) inv.maxUses = false := by
        rw [hmax]
        exact isLastUse_coe_false (countInvitationUses st inv.id) N hmidcount
      have hcons : consumeInvite options st inv (applyBeforeAcceptInvite options u)
          (applyBeforeAcceptInvite options u).id (countInvitationUses st inv.id) token false
          = (Except.ok (), midUseStore options st inv (applyBeforeAcceptInvite options u)) := by
        simp [consumeInvite, hmail, hgate, hlast, midUseStore]
      refine ⟨?_, rfl, rfl⟩
      simp only [activateInviteLogic, hfind]
      rw [if_neg (not_not_intro hlt), if_neg hexp]
      simp [hcons]

/-- A public invitation allowing two uses. -/
def invW : Invitation :=
  { id := "i5", token := "t5", createdByUserId := "creator", createdAt := 0,
    expiresAt := 1000000, maxUses := 2, redirectToAfterUpgrade := "/after",
    shareInviterName := true, email := none, role := "admin" }

/-- invW with no recorded uses. -/
def stW0 : Store := { invites := [invW], inviteUses := [], users := [userA] }

/-- invW with one recorded use. -/
def stW1 : Store :=
  { invites := [invW],
    inviteUses := [{ inviteId := "i5", usedByUserId := "u9", usedAt := 0 }],
    users := [userA] }

/-- invW with both permitted uses recorded. -/
def stW2 : Store :=
  { invites := [invW],
    inviteUses := [{ inviteId := "i5", usedByUserId := "u9", usedAt := 0 },
                   { inviteId := "i5", usedByUserId := "u8", usedAt := 1 }],
    users := [userA] }

/-- Witness for C1 with maxUses two: the exhausted store fails unchanged,
the one-use store takes the final redemption and is scrubbed, the fresh
store takes a first redemption that appends exactly one use row. -/
theorem activate_use_accounting_witness :
    activateInviteLogic optTrue stW2 "t5" (some userA)
      = (ActivateOutcome.failure alreadyUsedError, stW2)
    ∧ activateInviteLogic optTrue stW1 "t5" (some userA)
      = (ActivateOutcome.upgraded, lastUseStore stW1 invW userA "t5")
    ∧ findInvitation (lastUseStore stW1 invW userA "t5") "t5" = none
    ∧ countInvitationUses (lastUseStore stW1 invW userA "t5") invW.id = 0
    ∧ activateInviteLogic optTrue stW0 "t5" (some userA)
      = (ActivateOutcome.upgraded, midUseStore optTrue stW0 invW userA)
    ∧ (midUseStore optTrue stW0 invW userA).inviteUses
      = stW0.inviteUses
        ++ [{ inviteId := invW.id, usedByUserId := userA.id, usedAt := optTrue.getDate }] := by
  have T2 := activate_use_accounting optTrue stW2 "t5" invW userA 2 rfl rfl (by decide)
  have T1 := activate_use_accounting optTrue stW1 "t5" invW userA 2 rfl rfl (by decide)
  have T0 := activate_use_accounting optTrue stW0 "t5" invW userA 2 rfl rfl (by decide)
  have P1 := (T1.2 (by decide) rfl (by decide)).1 (by decide)
  have P0 := (T0.2 (by decide) rfl (by decide)).2 (by decide)
  exact ⟨T2.1 (by decide), P1.1, P1.2.1, P1.2.2, P0.1, P0.2.2⟩

end InvitePlugin
